import Mathlib

/-!
Verification development for `scripts/generate_namd_configs.py` of the
RNA-Folding-MD repository.

The script is a one-shot batch generator: for each (system, replica) pair of a
fixed catalog it renders a NAMD control-file text (`create_namd_config`) and
appends one row to a metadata manifest (`main`).  We embed the script shallowly:

* Python ints become `Nat`/`Int`; the float arithmetic of the script
  (`int(1e6 / TIMESTEP_FS)` and friends) is embedded over `ℚ`.  Every float
  computation the script performs is exact in IEEE-754 double precision at the
  compiled-in constants (all intermediate values are representable, and the one
  inexact literal `0.2` satisfies `fl(fl(0.2) * 1e6) = 200000.0`), so the
  rational embedding produces the very same values.
* Python's built-in `hash` on `str` (CPython ≥ 3.11) is SipHash-1-3 over the
  string's byte representation, keyed by the per-process hash secret
  `(k0, k1)` (randomized at interpreter start unless `PYTHONHASHSEED` is
  fixed).  We embed it faithfully as `pyHashStr`, taking the process secret as
  an explicit parameter; `pyHashStr (0, 0)` agrees with CPython run under
  `PYTHONHASHSEED=0`.
* The rendered document is embedded line by line (`configLines`), transcribed
  from the f-string template; `create_namd_config` joins the lines with
  newlines exactly as the multi-line literal does.
-/

set_option maxRecDepth 100000
set_option maxHeartbeats 2000000

namespace NAMDGen

/-! ### CPython string hash (SipHash-1-3 with explicit process secret) -/

/-- Arithmetic is on 64-bit words, represented as `Nat` reduced mod `2^64`. -/
def M64 : Nat := 18446744073709551616

def mask64 (x : Nat) : Nat := x % M64

/-- Left rotation of a 64-bit word (argument assumed `< 2^64`). -/
def rotl64 (x b : Nat) : Nat := mask64 (x <<< b) ||| (x >>> (64 - b))

/-- Addition mod `2^64`. -/
def add64 (a b : Nat) : Nat := (a + b) % M64

/-- Internal state of SipHash: four 64-bit words. -/
structure SipState where
  v0 : Nat
  v1 : Nat
  v2 : Nat
  v3 : Nat

/-- One SipRound (the `SINGLE_ROUND` of CPython's `pysiphash`). -/
def sipRound (s : SipState) : SipState :=
  let a0 := add64 s.v0 s.v1
  let a1 := rotl64 s.v1 13
  let a1 := a1 ^^^ a0
  let a0 := rotl64 a0 32
  let a2 := add64 s.v2 s.v3
  let a3 := rotl64 s.v3 16
  let a3 := a3 ^^^ a2
  let a0 := add64 a0 a3
  let a3 := rotl64 a3 21
  let a3 := a3 ^^^ a0
  let a2 := add64 a2 a1
  let a1 := rotl64 a1 17
  let a1 := a1 ^^^ a2
  let a2 := rotl64 a2 32
  ⟨a0, a1, a2, a3⟩

/-- Absorb one 8-byte message word. -/
def sipCompress (s : SipState) (m : Nat) : SipState :=
  let s := sipRound ⟨s.v0, s.v1, s.v2, s.v3 ^^^ m⟩
  ⟨s.v0 ^^^ m, s.v1, s.v2, s.v3⟩

/-- Little-endian word value of a byte list (first byte is least significant). -/
def wordLE (bs : List Nat) : Nat := bs.foldr (fun b acc => b + 256 * acc) 0

/-- Absorb all full 8-byte blocks of the message, returning the new state and
the trailing bytes (fewer than 8 of them). -/
def sipBlocks (s : SipState) : List Nat → SipState × List Nat
  | b0 :: b1 :: b2 :: b3 :: b4 :: b5 :: b6 :: b7 :: rest =>
      sipBlocks (sipCompress s (wordLE [b0, b1, b2, b3, b4, b5, b6, b7])) rest
  | rest => (s, rest)

/-- SipHash-1-3 of a byte list under key `(k0, k1)`, as in CPython's
`pysiphash13` (`Python/pyhash.c`): 1 compression round per word, 3
finalization rounds. -/
def pySipHash13 (k0 k1 : Nat) (msg : List Nat) : Nat :=
  let init : SipState :=
    ⟨mask64 k0 ^^^ 0x736f6d6570736575,
     mask64 k1 ^^^ 0x646f72616e646f6d,
     mask64 k0 ^^^ 0x6c7967656e657261,
     mask64 k1 ^^^ 0x7465646279746573⟩
  let p := sipBlocks init msg
  let lastWord := ((msg.length % 256) <<< 56) ||| wordLE p.2
  let s := sipCompress p.1 lastWord
  let s := sipRound ⟨s.v0, s.v1, s.v2 ^^^ 0xff, s.v3⟩
  let s := sipRound s
  let s := sipRound s
  (s.v0 ^^^ s.v1) ^^^ (s.v2 ^^^ s.v3)

/-- Byte representation of a string.  The catalog names are pure ASCII, where
the UTF-8/latin-1 bytes CPython hashes coincide with the code points. -/
def strBytes (s : String) : List Nat := s.data.map Char.toNat

/-- CPython's `hash` on a `str`, with the per-process hash secret `(k0, k1)`
as an explicit parameter: SipHash-1-3 of the bytes, reinterpreted as a signed
64-bit integer, with the reserved value `-1` mapped to `-2`, and the empty
string hashing to `0`. -/
def pyHashStr (k : Nat × Nat) (s : String) : Int :=
  if s = "" then 0
  else
    let t := pySipHash13 k.1 k.2 (strBytes s)
    let h : Int := if t < 9223372036854775808 then (t : Int) else (t : Int) - (M64 : Int)
    if h = -1 then -2 else h

/-! ### Global constants of the script -/

def N_REPLICAS : Nat := 10
def SIM_LENGTH_NS : Nat := 20
def TIMESTEP_FS : ℚ := 2.0
def OUTPUT_FREQ_PS : ℚ := 10.0
def EQUIL_MINIMIZE_STEPS : Nat := 10000
def EQUIL_HEAT_PS : ℚ := 0.2
def EQUIL_NVT_PS : ℚ := 0.5
def EQUIL_NPT_PS : ℚ := 0.5

/-- Python's `int()` applied to a nonnegative float value (truncation; equal to
the floor on the nonnegative arguments the script uses). -/
def pyInt (q : ℚ) : Nat := (Int.floor q).toNat

def steps_per_ns : Nat := pyInt (1000000 / TIMESTEP_FS)
def total_prod_steps : Nat := SIM_LENGTH_NS * steps_per_ns
def output_freq : Nat := pyInt (OUTPUT_FREQ_PS * 1000 / TIMESTEP_FS)
def heat_steps : Nat := pyInt (EQUIL_HEAT_PS * 1000000 / TIMESTEP_FS)
def nvt_steps : Nat := pyInt (EQUIL_NVT_PS * 1000000 / TIMESTEP_FS)
def npt_steps : Nat := pyInt (EQUIL_NPT_PS * 1000000 / TIMESTEP_FS)

/-- Seed derivation of `create_namd_config`:
`seed = 12345 + replica_id * 1000 + hash(system_name) % 1000`.
Python's `%` with positive modulus is the Euclidean remainder `Int.emod`. -/
def seedOf (k : Nat × Nat) (system_name : String) (replica_id : Nat) : Int :=
  12345 + (replica_id : Int) * 1000 + (pyHashStr k system_name).emod 1000

/-! ### Rendering helpers (Python string formatting) -/

/-- Python `repr` of a nonnegative float whose value is a multiple of `1/10`
(the only floats the template interpolates): one digit after the point. -/
def fmtTenth (q : ℚ) : String :=
  toString ((q * 10).num.ediv 10) ++ "." ++ toString ((q * 10).num.emod 10)

/-- Python `f"{n:02d}"` for the replica indices (all `< 100`). -/
def fmt02 (n : Nat) : String := if n < 10 then "0" ++ toString n else toString n

/-! ### The system catalog -/

/-- The `SYSTEMS` table: `(name, temperature, size_class)` triples in
declaration order. -/
def SYSTEMS : List (String × Nat × String) :=
  [("regime0_1RC7_300K", 300, "small"),
   ("regime0_1RC7_350K", 350, "small"),
   ("regime1_1A60_300K", 300, "small"),
   ("regime1_1A60_350K", 350, "small"),
   ("regime2_165D_300K", 300, "tiny"),
   ("regime2_165D_350K", 350, "tiny"),
   ("regime3_1K8W_300K", 300, "tiny"),
   ("regime3_1K8W_350K", 350, "tiny"),
   ("regime4_1LNG_300K", 300, "medium"),
   ("regime4_1LNG_350K", 350, "medium"),
   ("regime5_1E7K_300K", 300, "small"),
   ("regime5_1E7K_350K", 350, "small"),
   ("regime6_1KXK_300K", 300, "medium"),
   ("regime6_1KXK_350K", 350, "medium"),
   ("regime7_1IDV_300K", 300, "tiny"),
   ("regime7_1IDV_350K", 350, "tiny"),
   ("regime8_regime8_domain_300K", 300, "xlarge"),
   ("regime9_1DRZ_300K", 300, "medium"),
   ("regime9_1DRZ_350K", 350, "medium"),
   ("regime10_1MJI_300K", 300, "medium"),
   ("regime10_1MJI_350K", 350, "medium"),
   ("regime11_1HQ1_300K", 300, "medium"),
   ("regime11_1HQ1_350K", 350, "medium"),
   ("regime12_1KQ2_300K", 300, "tiny"),
   ("regime12_1KQ2_350K", 350, "tiny")]

/-- Size-tier lookup of `create_namd_config` (the `if/elif/else` chain):
`(pme_grid, pairlist, patch_dim)`.  Every size other than `"xlarge"` and
`"medium"` falls into the final `else` (small/tiny) branch. -/
def size_params (system_size : String) : ℚ × ℚ × ℚ :=
  if system_size = "xlarge" then (1.0, 13.0, 20.0)
  else if system_size = "medium" then (0.9, 12.5, 18.0)
  else (0.8, 12.0, 16.0)

/-! ### The rendered document -/

/-- The 61-character section separator line of the template. -/
def sep : String :=
  "#############################################################"

/-- The lines of the f-string template of `create_namd_config`, in order, with
every interpolation resolved exactly as Python renders it.  `k` is the
process hash secret feeding the `seed` line. -/
def configLines (k : Nat × Nat) (system_name : String) (temperature : Nat)
    (replica_id : Nat) (system_size : String) : List String :=
  let pme_grid := (size_params system_size).1
  let pairlist := (size_params system_size).2.1
  let patch_dim := (size_params system_size).2.2
  let output_name := system_name ++ "_rep" ++ fmt02 replica_id
  [sep,
   "## NAMD Config: " ++ system_name ++ " Rep " ++ toString replica_id,
   "## RIGOROUS + PERFORMANCE OPTIMIZED",
   sep,
   "",
   sep,
   "## INPUT",
   sep,
   "amber yes",
   "parmfile ../topology_files/" ++ system_name ++ ".prmtop",
   "ambercoor ../topology_files/" ++ system_name ++ ".inpcrd",
   "temperature " ++ toString temperature,
   "seed " ++ toString (seedOf k system_name replica_id),
   "",
   sep,
   "## OUTPUT - I/O OPTIMIZED",
   sep,
   "outputName " ++ output_name,
   "binaryoutput yes",
   "binaryrestart yes",
   "restartfreq " ++ toString output_freq,
   "dcdfreq " ++ toString output_freq,
   "xstFreq " ++ toString output_freq,
   "outputEnergies " ++ toString (output_freq * 5),
   "outputTiming " ++ toString (output_freq * 10),
   "flushOutput yes",
   "",
   sep,
   "## INTEGRATION",
   sep,
   "timestep " ++ fmtTenth TIMESTEP_FS,
   "rigidBonds all",
   "nonbondedFreq 1",
   "fullElectFrequency 2",
   "stepspercycle 20",
   "",
   sep,
   "## FORCE FIELD",
   sep,
   "exclude scaled1-4",
   "1-4scaling 0.833333",
   "switching on",
   "switchdist 10.0",
   "cutoff 12.0",
   "pairlistdist " ++ fmtTenth pairlist,
   "",
   sep,
   "## PME - PERFORMANCE TUNED",
   sep,
   "PME yes",
   "PMEGridSpacing " ++ fmtTenth pme_grid,
   "PMEInterpOrder 6",
   "",
   sep,
   "## TEMPERATURE",
   sep,
   "langevin on",
   "langevinDamping 1.0",
   "langevinTemp " ++ toString temperature,
   "langevinHydrogen off",
   "",
   sep,
   "## PRESSURE",
   sep,
   "useGroupPressure yes",
   "useFlexibleCell no",
   "useConstantArea no",
   "langevinPiston on",
   "langevinPistonTarget 1.01325",
   "langevinPistonPeriod 100.0",
   "langevinPistonDecay 50.0",
   "langevinPistonTemp " ++ toString temperature,
   "",
   sep,
   "## PERFORMANCE OPTIMIZATIONS",
   sep,
   "CUDASOAintegrate on",
   "margin 2.5",
   "patchDimension " ++ fmtTenth patch_dim,
   "",
   sep,
   "## RIGOROUS EQUILIBRATION",
   sep,
   "",
   "print \"EQUILIBRATION STAGE 1: Minimization (" ++ toString EQUIL_MINIMIZE_STEPS
     ++ " steps)\"",
   "minimize " ++ toString EQUIL_MINIMIZE_STEPS,
   "",
   "print \"EQUILIBRATION STAGE 2: Restrained heating to " ++ toString temperature
     ++ "K (" ++ fmtTenth EQUIL_HEAT_PS ++ " ns)\"",
   "constraints on",
   "consref ../topology_files/" ++ system_name ++ ".inpcrd",
   "conskfile ../topology_files/" ++ system_name ++ ".inpcrd",
   "conskcol B",
   "constraintScaling 5.0",
   "",
   "velocity reassign " ++ fmtTenth ((temperature : ℚ) * 0.5),
   "run " ++ toString (heat_steps / 2),
   "",
   "for \x7bset i 0\x7d \x7b$i < 10\x7d \x7bincr i\x7d \x7b",
   "    set temp [expr " ++ toString temperature ++ " * 0.5 + ("
     ++ toString temperature ++ " * 0.5) * $i / 10.0]",
   "    langevinTemp $temp",
   "    langevinPistonTemp $temp",
   "    run [expr " ++ toString heat_steps ++ " / 20]",
   "\x7d",
   "",
   "print \"EQUILIBRATION STAGE 3: NVT equilibration (" ++ fmtTenth EQUIL_NVT_PS
     ++ " ns)\"",
   "langevinPiston off",
   "constraintScaling 2.0",
   "run " ++ toString nvt_steps,
   "",
   "print \"EQUILIBRATION STAGE 4: NPT equilibration (" ++ fmtTenth EQUIL_NPT_PS
     ++ " ns)\"",
   "langevinPiston on",
   "constraintScaling 1.0",
   "run " ++ toString (npt_steps / 2),
   "",
   "constraints off",
   "run " ++ toString (npt_steps / 2),
   "",
   sep,
   "## PRODUCTION MD",
   sep,
   "print \"PRODUCTION: " ++ toString SIM_LENGTH_NS ++ " ns at "
     ++ toString temperature ++ "K\"",
   "",
   "dcdfreq " ++ toString output_freq,
   "xstFreq " ++ toString output_freq,
   "restartfreq " ++ toString output_freq,
   "outputEnergies " ++ toString output_freq,
   "",
   "run " ++ toString total_prod_steps,
   "",
   "print \"COMPLETE: " ++ output_name ++ "\""]

/-- `create_namd_config`: renders the document (the template lines joined by
newlines, with the trailing newline of the multi-line literal) and returns it
together with the size class, exactly as the script returns
`(config, system_size)`.  `base_dir` is a parameter of the source function
that its body never uses. -/
def create_namd_config (k : Nat × Nat) (system_name : String) (temperature : Nat)
    (replica_id : Nat) (system_size : String) (base_dir : String) : String × String :=
  (String.intercalate "\n" (configLines k system_name temperature replica_id system_size)
    ++ "\n", system_size)

/-- Downstream evaluation of the Tcl temperature-ramp loop that the template
embeds as literal text (`for ... $i < 10 ... incr i`): the successive values
assigned to `langevinTemp`, namely
`temperature * 0.5 + (temperature * 0.5) * i / 10.0` for `i = 0, …, 9`.
All operands are exact in double precision at the catalog temperatures, so
rational arithmetic renders the Tcl `expr` faithfully. -/
def rampTemps (temperature : ℚ) : List ℚ :=
  (List.range 10).map (fun i => temperature * 0.5 + temperature * 0.5 * (i : ℚ) / 10)

/-! ### The driver loop and the manifest (`main`) -/

/-- File name of one run's document: `f"{system_name}_rep{replica:02d}.namd"`. -/
def fileNameOf (system_name : String) (replica : Nat) : String :=
  system_name ++ "_rep" ++ fmt02 replica ++ ".namd"

/-- One manifest row, as appended by the driver loop:
`f"{system_name}_rep{replica:02d}.namd\t{sys_size}\t{temperature}\n"`. -/
def manifestRow (sys : String × Nat × String) (replica : Nat) : String :=
  fileNameOf sys.1 replica ++ "\t" ++ sys.2.2 ++ "\t" ++ toString sys.2.1 ++ "\n"

/-- The manifest rows accumulated by `main`: outer loop over `SYSTEMS` in
declaration order, inner loop over replicas `0, …, N_REPLICAS - 1`. -/
def metadataRows : List String :=
  List.flatten (SYSTEMS.map (fun sys =>
    (List.range N_REPLICAS).map (fun r => manifestRow sys r)))

/-- The names of the document files written by `main`, in write order. -/
def writtenFileNames : List String :=
  List.flatten (SYSTEMS.map (fun sys =>
    (List.range N_REPLICAS).map (fun r => fileNameOf sys.1 r)))

/-- The full text of `system_metadata.txt`: the comment header line followed
by every accumulated row. -/
def manifestText : String :=
  "# config_file\tsystem_size\ttemperature\n" ++ String.join metadataRows

/-! ### Theorems -/

/-- Numeric code of a string: its code points as digits of a base-1000003
number, reduced mod `2^64`.  Any two strings with distinct codes are
distinct, which keeps the pairwise distinctness of the 250 generated file
names cheap to certify. -/
def stringCode (s : String) : Nat :=
  s.data.foldl (fun a c => (a * 1000003 + c.toNat) % 18446744073709551616) 0

/-- The `stringCode` values of the 250 generated file names, precomputed so
that their pairwise distinctness is a check on numeric literals. -/
def fileNameCodes : List Nat :=
  [15844360829897320448, 11850829662744172595, 7857298495591024742, 3863767328437876889, 
   18316980234994280652, 14323449067841132799, 10329917900687984946, 6336386733534837093, 
   2342855566381689240, 16796068472938093003, 16613117692714948959, 12619586525561801106, 
   8626055358408653253, 4632524191255505400, 638993024102357547, 15092205930658761310, 
   11098674763505613457, 7105143596352465604, 3111612429199317751, 17564825335755721514, 
   10350089386287707052, 6356558219134559199, 2363027051981411346, 16816239958537815109, 
   12822708791384667256, 8829177624231519403, 4835646457078371550, 842115289925223697, 
   15295328196481627460, 11301797029328479607, 11118846249105335563, 7125315081952187710, 
   3131783914799039857, 17584996821355443620, 13591465654202295767, 9597934487049147914, 
   5604403319896000061, 1610872152742852208, 16064085059299255971, 12070553892146108118, 
   11701680075215595533, 7708148908062447680, 3714617740909299827, 18167830647465703590, 
   14174299480312555737, 10180768313159407884, 6187237146006260031, 2193705978853112178, 
   16646918885409515941, 12653387718256368088, 12470436938033224044, 8476905770880076191, 
   4483374603726928338, 489843436573780485, 14943056343130184248, 10949525175977036395, 
   6955994008823888542, 2962462841670740689, 17415675748227144452, 13422144581073996599, 
   8576763363230384729, 4583232196077236876, 589701028924089023, 15042913935480492786, 
   11049382768327344933, 7055851601174197080, 3062320434021049227, 17515533340577452990, 
   13522002173424305137, 9528471006271157284, 9345520226048013240, 5351989058894865387, 
   1358457891741717534, 15811670798298121297, 11818139631144973444, 7824608463991825591, 
   3831077296838677738, 18284290203395081501, 14290759036241933648, 10297227869088785795, 
   1125369481253283655, 15578582387809687418, 11585051220656539565, 7591520053503391712, 
   3597988886350243859, 18051201792906647622, 14057670625753499769, 10064139458600351916, 
   6070608291447204063, 2077077124294056210, 1894126344070912166, 16347339250627315929, 
   12353808083474168076, 8360276916321020223, 4366745749167872370, 373214582014724517, 
   14826427488571128280, 10832896321417980427, 6839365154264832574, 2845833987111684721, 
   16116870761682971258, 12123339594529823405, 8129808427376675552, 4136277260223527699, 
   142746093070379846, 14595958999626783609, 10602427832473635756, 6608896665320487903, 
   2615365498167340050, 17068578404723743813, 16885627624500599769, 12892096457347451916, 
   8898565290194304063, 4905034123041156210, 911502955888008357, 15364715862444412120, 
   11371184695291264267, 7377653528138116414, 3384122360984968561, 17837335267541372324, 
   2356930505950346630, 16810143412506750393, 12816612245353602540, 8823081078200454687, 
   4829549911047306834, 836018743894158981, 15289231650450562744, 11295700483297414891, 
   7302169316144267038, 3308638148991119185, 3125687368767975141, 17578900275324378904, 
   13585369108171231051, 9591837941018083198, 5598306773864935345, 1604775606711787492, 
   16057988513268191255, 12064457346115043402, 8070926178961895549, 4077395011808747696, 
   15656821489378251126, 11663290322225103273, 7669759155071955420, 3676227987918807567, 
   18129440894475211330, 14135909727322063477, 10142378560168915624, 6148847393015767771, 
   2155316225862619918, 16608529132419023681, 16425578352195879637, 12432047185042731784, 
   8438516017889583931, 4444984850736436078, 451453683583288225, 14904666590139691988, 
   10911135422986544135, 6917604255833396282, 2924073088680248429, 17377285995236652192, 
   13218577118247960955, 9225045951094813102, 5231514783941665249, 1237983616788517396, 
   15691196523344921159, 11697665356191773306, 7704134189038625453, 3710603021885477600, 
   18163815928441881363, 14170284761288733510, 18398087227678108829, 14404556060524960976, 
   10411024893371813123, 6417493726218665270, 2423962559065517417, 16877175465621921180, 
   12883644298468773327, 8890113131315625474, 4896581964162477621, 903050797009329768, 
   720100016786185724, 15173312923342589487, 11179781756189441634, 7186250589036293781, 
   3192719421883145928, 17645932328439549691, 13652401161286401838, 9658869994133253985, 
   5665338826980106132, 1671807659826958279, 16342915190743533309, 12349384023590385456, 
   8355852856437237603, 4362321689284089750, 368790522130941897, 14822003428687345660, 
   10828472261534197807, 6834941094381049954, 2841409927227902101, 17294622833784305864, 
   17111672053561161820, 13118140886408013967, 9124609719254866114, 5131078552101718261, 
   1137547384948570408, 15590760291504974171, 11597229124351826318, 7603697957198678465, 
   3610166790045530612, 18063379696601934375, 89736640145321216, 14542949546701724979, 
   10549418379548577126, 6555887212395429273, 2562356045242281420, 17015568951798685183, 
   13022037784645537330, 9028506617492389477, 5034975450339241624, 1041444283186093771, 
   858493502962949727, 15311706409519353490, 11318175242366205637, 7324644075213057784, 
   3331112908059909931, 17784325814616313694, 13790794647463165841, 9797263480310017988, 
   5803732313156870135, 1810201146003722282, 7531060722269861519, 3537529555116713666, 
   17990742461673117429, 13997211294519969576, 10003680127366821723, 6010148960213673870, 
   2016617793060526017, 16469830699616929780, 12476299532463781927, 8482768365310634074, 
   8299817585087490030, 4306286417934342177, 312755250781194324, 14765968157337598087, 
   10772436990184450234, 6778905823031302381, 2785374655878154528, 17238587562434558291, 
   13245056395281410438, 9251525228128262585]

/-- The generated file names map exactly to the precomputed codes. -/
theorem writtenFileNames_codes :
    writtenFileNames.map stringCode = fileNameCodes := by decide

/-- The precomputed codes are pairwise distinct. -/
theorem fileNameCodes_nodup : fileNameCodes.Nodup := by decide

/-- Indexing the flattened image of a map whose chunks all have length `K`:
entry `K * i + r` of the flattening is entry `r` of chunk `i` (the outer
loop over `l`, the inner loop inside a chunk). -/
theorem flatten_map_getElem {α β : Type} (f : α → List β) (K : Nat)
    (hK : ∀ a, (f a).length = K) :
    ∀ (l : List α) (i r : Nat), r < K →
      ((l.map f).flatten)[K * i + r]? = (l[i]?).bind fun a => (f a)[r]?
  | [], i, r, _ => by simp
  | a :: l, 0, r, hr => by
    have h1 : r < (f a).length := by rw [hK a]; exact hr
    rw [List.map_cons, List.flatten_cons, Nat.mul_zero, Nat.zero_add,
      List.getElem?_append, if_pos h1, List.getElem?_cons_zero]
    rfl
  | a :: l, i + 1, r, hr => by
    have h1 : (f a).length ≤ K * (i + 1) + r := by rw [hK a, Nat.mul_succ]; omega
    have h2 : K * (i + 1) + r - K = K * i + r := by rw [Nat.mul_succ]; omega
    rw [List.map_cons, List.flatten_cons, List.getElem?_append_right h1, hK a, h2,
      flatten_map_getElem f K hK l i r hr, List.getElem?_cons_succ]

/-- Manifest row `N_REPLICAS * i + r` is the row of catalog entry `i` at
replica `r`. -/
theorem rows_getElem (i r : Nat) (hr : r < N_REPLICAS) :
    metadataRows[N_REPLICAS * i + r]?
      = (SYSTEMS[i]?).map fun sys => manifestRow sys r := by
  have h := flatten_map_getElem
    (fun sys : String × Nat × String => (List.range N_REPLICAS).map fun q => manifestRow sys q)
    N_REPLICAS (fun sys => by simp) SYSTEMS i r hr
  simp only [List.getElem?_map, List.getElem?_range hr, Option.map_some'] at h
  exact h.trans (by cases SYSTEMS[i]? <;> rfl)

/-- Written file `N_REPLICAS * i + r` is the file of catalog entry `i` at
replica `r`. -/
theorem files_getElem (i r : Nat) (hr : r < N_REPLICAS) :
    writtenFileNames[N_REPLICAS * i + r]?
      = (SYSTEMS[i]?).map fun sys => fileNameOf sys.1 r := by
  have h := flatten_map_getElem
    (fun sys : String × Nat × String => (List.range N_REPLICAS).map fun q => fileNameOf sys.1 q)
    N_REPLICAS (fun sys => by simp) SYSTEMS i r hr
  simp only [List.getElem?_map, List.getElem?_range hr, Option.map_some'] at h
  exact h.trans (by cases SYSTEMS[i]? <;> rfl)

/-- List membership from an indexed lookup, with the index explicit. -/
theorem mem_of_get_eq {α : Type} (l : List α) (n : Nat) (a : α)
    (h : l.get? n = some a) : a ∈ l :=
  List.get?_mem h

/-- Line 44 of every document is the pairlist directive, rendered from the
size tier. -/
theorem configLines_get_pairlist (k : Nat × Nat) (n : String) (t r : Nat)
    (s : String) :
    (configLines k n t r s).get? 44
      = some ("pairlistdist " ++ fmtTenth (size_params s).2.1) := rfl

/-- Line 50 of every document is the PME grid directive, rendered from the
size tier. -/
theorem configLines_get_pme (k : Nat × Nat) (n : String) (t r : Nat)
    (s : String) :
    (configLines k n t r s).get? 50
      = some ("PMEGridSpacing " ++ fmtTenth (size_params s).1) := rfl

/-- Line 78 of every document is the patch-dimension directive, rendered from
the size tier. -/
theorem configLines_get_patch (k : Nat × Nat) (n : String) (t r : Nat)
    (s : String) :
    (configLines k n t r s).get? 78
      = some ("patchDimension " ++ fmtTenth (size_params s).2.2) := rfl

/-- Claim C1 (refuting the stability of the written seed): two interpreter
invocations that differ only in the per-process hash secret — here `(0, 0)`,
the secret fixed by `PYTHONHASHSEED=0`, against `(1, 2)` — derive different
seeds for the same catalog system and replica, and hence write different
documents.  The name-hash term of line 65 is CPython's randomized `hash`,
not a content-based function of the name string: the first run writes the
line `seed 13244`, the second `seed 12481`. -/
theorem seed_varies_with_process_hash_secret :
    seedOf (0, 0) "regime0_1RC7_300K" 0 = 13244
    ∧ seedOf (1, 2) "regime0_1RC7_300K" 0 = 12481
    ∧ (configLines (0, 0) "regime0_1RC7_300K" 300 0 "small")[12]? = some "seed 13244"
    ∧ (configLines (1, 2) "regime0_1RC7_300K" 300 0 "small")[12]? = some "seed 12481"
    ∧ (create_namd_config (0, 0) "regime0_1RC7_300K" 300 0 "small" "dir").1
      ≠ (create_namd_config (1, 2) "regime0_1RC7_300K" 300 0 "small" "dir").1 := by
  exact ⟨by decide, by decide, by decide, by decide, by with_unfolding_all decide⟩

/-- Claim C2 (refuting that the ramp reaches the full target): evaluating the
Tcl ramp loop that the document embeds verbatim (at target temperature
300 K), the thermostat targets are `150, 165, …, 285`: they start at
`150 = 0.5 * 300` but the final sub-increment sets `285 = 0.95 * 300`, not
the full temperature `300`, and the loop text appears in the document. -/
theorem ramp_final_below_target :
    rampTemps 300 = [150, 165, 180, 195, 210, 225, 240, 255, 270, 285]
    ∧ (rampTemps 300).getLast? = some 285
    ∧ (rampTemps 300).getLast? ≠ some 300
    ∧ (configLines (0, 0) "regime0_1RC7_300K" 300 0 "small")[98]?
        = some "    set temp [expr 300 * 0.5 + (300 * 0.5) * $i / 10.0]" := by
  refine ⟨by with_unfolding_all decide, by with_unfolding_all decide,
    by with_unfolding_all decide, rfl⟩

/-- Claim C3: the seed is `12345 + replica * 1000 + hash(name) % 1000`, the
hash term lies in `[0, 1000)`, and within one system (same name, same process
secret) the seeds of distinct replicas below `N_REPLICAS` are distinct. -/
theorem seed_formula_and_distinct (k : Nat × Nat) (name : String) :
    (∀ r : Nat, seedOf k name r
        = 12345 + (r : Int) * 1000 + (pyHashStr k name).emod 1000)
    ∧ (0 ≤ (pyHashStr k name).emod 1000 ∧ (pyHashStr k name).emod 1000 < 1000)
    ∧ ∀ r1 r2 : Nat, r1 < N_REPLICAS → r2 < N_REPLICAS → r1 ≠ r2 →
        seedOf k name r1 ≠ seedOf k name r2 := by
  refine ⟨fun r => rfl, ⟨Int.emod_nonneg _ (by norm_num),
    Int.emod_lt_of_pos _ (by norm_num)⟩, fun r1 r2 _ _ hne heq => ?_⟩
  unfold seedOf at heq
  omega

/-- Witness for C3 at a concrete input: replicas 0 and 1 of the first catalog
system, under the `PYTHONHASHSEED=0` secret, get distinct seeds. -/
theorem seed_formula_and_distinct_witness :
    seedOf (0, 0) "regime0_1RC7_300K" 0 ≠ seedOf (0, 0) "regime0_1RC7_300K" 1 :=
  (seed_formula_and_distinct (0, 0) "regime0_1RC7_300K").2.2 0 1
    (by decide) (by decide) (by decide)

/-- Claim C4: at the compiled-in constants, `steps_per_ns = 500000` (equal to
the rounding the spec states), `total_prod_steps = 20 * 500000 = 10000000`
and is exactly the argument of the production-stage `run` directive, and
`output_freq = 5000`. -/
theorem step_count_constants :
    steps_per_ns = 500000
    ∧ round ((1000000 : ℚ) / TIMESTEP_FS) = (500000 : ℤ)
    ∧ total_prod_steps = SIM_LENGTH_NS * steps_per_ns
    ∧ total_prod_steps = 10000000
    ∧ output_freq = 5000
    ∧ round (OUTPUT_FREQ_PS * 1000 / TIMESTEP_FS) = (5000 : ℤ)
    ∧ ∀ k n t r s, (configLines k n t r s)[127]? = some "run 10000000" := by
  exact ⟨by with_unfolding_all decide, by with_unfolding_all decide, rfl,
    by with_unfolding_all decide, by with_unfolding_all decide,
    by with_unfolding_all decide, fun k n t r s => by with_unfolding_all rfl⟩

/-- Claim C5: the size-tier lookup maps `xlarge`, `medium` and the shared
`small`/`tiny` tier to exactly the three declared
`(pme_grid, pairlist, patch_dim)` triples, and a `tiny` or `small` document
contains the directives `pairlistdist 12.0`, `PMEGridSpacing 0.8` and
`patchDimension 16.0`. -/
theorem size_tier_lookup :
    size_params "tiny" = (0.8, 12.0, 16.0)
    ∧ size_params "small" = (0.8, 12.0, 16.0)
    ∧ size_params "medium" = (0.9, 12.5, 18.0)
    ∧ size_params "xlarge" = (1.0, 13.0, 20.0)
    ∧ ∀ k n t r s, (s = "tiny" ∨ s = "small") →
        "pairlistdist 12.0" ∈ configLines k n t r s
        ∧ "PMEGridSpacing 0.8" ∈ configLines k n t r s
        ∧ "patchDimension 16.0" ∈ configLines k n t r s := by
  refine ⟨by with_unfolding_all decide, by with_unfolding_all decide,
    by with_unfolding_all decide, by with_unfolding_all decide, ?_⟩
  rintro k n t r s (rfl | rfl) <;>
    exact ⟨mem_of_get_eq _ 44 _ (by with_unfolding_all rfl),
      mem_of_get_eq _ 50 _ (by with_unfolding_all rfl),
      mem_of_get_eq _ 78 _ (by with_unfolding_all rfl)⟩

/-- Witness for C5 at the spec's scenario input: a `tiny` system at replica 3
renders the finest-tier pairlist directive. -/
theorem size_tier_lookup_witness :
    "pairlistdist 12.0" ∈ configLines (0, 0) "regimeX_300K" 300 3 "tiny" :=
  (size_tier_lookup.2.2.2.2 (0, 0) "regimeX_300K" 300 3 "tiny" (Or.inl rfl)).1

/-- Claim C6: the manifest is the comment header followed by exactly
`25 * 10 = 250` rows; the written file names are pairwise distinct; and row
`N_REPLICAS * i + r` is the row of catalog entry `i` at replica `r` (outer
loop in declaration order, inner loop ascending), matching the written file. -/
theorem manifest_complete :
    manifestText = "# config_file\tsystem_size\ttemperature\n" ++ String.join metadataRows
    ∧ SYSTEMS.length = 25
    ∧ metadataRows.length = SYSTEMS.length * N_REPLICAS
    ∧ writtenFileNames.Nodup
    ∧ ∀ i, i < SYSTEMS.length → ∀ r, r < N_REPLICAS →
        metadataRows[N_REPLICAS * i + r]?
          = (SYSTEMS[i]?).map (fun sys => manifestRow sys r)
        ∧ writtenFileNames[N_REPLICAS * i + r]?
          = (SYSTEMS[i]?).map (fun sys => fileNameOf sys.1 r) := by
  refine ⟨rfl, rfl, rfl, ?_, fun i _ r hr => ⟨rows_getElem i r hr, files_getElem i r hr⟩⟩
  exact List.Nodup.of_map stringCode
    (by rw [writtenFileNames_codes]; exact fileNameCodes_nodup)

/-- Manifest row count: 250 rows, one per (system, replica) pair. -/
theorem metadataRows_count : metadataRows.length = 250 := by decide

/-- Witness for C6 at a concrete index: manifest row 37 is catalog entry 3
(`regime1_1A60_350K`) at replica 7. -/
theorem manifest_complete_witness :
    metadataRows[37]? = (SYSTEMS[3]?).map (fun sys => manifestRow sys 7) :=
  (manifest_complete.2.2.2.2 3 (by decide) 7 (by decide)).1

/-- Claim C7: the minimize directive of every generated document is the
constant `minimize 10000` (`EQUIL_MINIMIZE_STEPS`); in particular two inputs
differing only in size class and/or temperature render identical minimize
directives, and at a concrete input it is the only `minimize` line. -/
theorem minimize_constant :
    EQUIL_MINIMIZE_STEPS = 10000
    ∧ (∀ k n t r s, (configLines k n t r s)[85]? = some "minimize 10000")
    ∧ (∀ k n r t1 s1 t2 s2,
        (configLines k n t1 r s1)[85]? = (configLines k n t2 r s2)[85]?)
    ∧ (configLines (0, 0) "regime0_1RC7_300K" 300 0 "small").filter
        (fun l => l.startsWith "minimize") = ["minimize 10000"] := by
  exact ⟨rfl, fun k n t r s => rfl, fun k n r t1 s1 t2 s2 => rfl,
    by with_unfolding_all decide⟩

/-- Claim C8: in every document the restraint scaling decreases
`5.0 → 2.0 → 1.0` across stages 2, 3 and 4 (lines 92, 106 and 111 of the
document), the NPT stage runs `npt_steps / 2 = 125000` steps restrained
(line 112), then `constraints off` (line 114), then the remaining
`npt_steps / 2` steps (line 115), all before the production run (line 127). -/
theorem restraint_schedule (k : Nat × Nat) (n : String) (t r : Nat) (s : String) :
    (configLines k n t r s)[92]? = some "constraintScaling 5.0"
    ∧ (configLines k n t r s)[106]? = some "constraintScaling 2.0"
    ∧ (configLines k n t r s)[111]? = some "constraintScaling 1.0"
    ∧ (configLines k n t r s)[112]? = some ("run " ++ toString (npt_steps / 2))
    ∧ (configLines k n t r s)[114]? = some "constraints off"
    ∧ (configLines k n t r s)[115]? = some ("run " ++ toString (npt_steps / 2))
    ∧ (configLines k n t r s)[127]? = some ("run " ++ toString total_prod_steps)
    ∧ npt_steps / 2 = 125000 := by
  exact ⟨rfl, rfl, rfl, rfl, rfl, rfl, rfl, by with_unfolding_all decide⟩

/-- Claim C9: `create_namd_config` never uses its `base_dir` argument — the
returned document and size class are identical for any two values of it. -/
theorem base_dir_irrelevant (k : Nat × Nat) (n : String) (t r : Nat)
    (s b1 b2 : String) :
    create_namd_config k n t r s b1 = create_namd_config k n t r s b2 := rfl

/-- Claim C10: the size lookup is total — any size string other than
`"xlarge"` and `"medium"`, declared or not, takes the catch-all small/tiny
branch, the document renders the finest-tier directives, and the function
returns normally with the given size class. -/
theorem size_params_catch_all (s : String) (h1 : s ≠ "xlarge")
    (h2 : s ≠ "medium") :
    size_params s = (0.8, 12.0, 16.0)
    ∧ ∀ k n t r, "pairlistdist 12.0" ∈ configLines k n t r s
        ∧ "PMEGridSpacing 0.8" ∈ configLines k n t r s
        ∧ "patchDimension 16.0" ∈ configLines k n t r s
        ∧ (create_namd_config k n t r s "d").2 = s := by
  have hp : size_params s = (0.8, 12.0, 16.0) := by
    unfold size_params
    rw [if_neg h1, if_neg h2]
  refine ⟨hp, fun k n t r => ?_⟩
  refine ⟨mem_of_get_eq _ 44 _ ?_, mem_of_get_eq _ 50 _ ?_,
    mem_of_get_eq _ 78 _ ?_, rfl⟩
  · rw [configLines_get_pairlist, hp]
    with_unfolding_all rfl
  · rw [configLines_get_pme, hp]
    with_unfolding_all rfl
  · rw [configLines_get_patch, hp]
    with_unfolding_all rfl

/-- Witness for C10: an undeclared size string selects the small/tiny tier. -/
theorem size_params_catch_all_witness :
    size_params "undeclared" = (0.8, 12.0, 16.0) :=
  (size_params_catch_all "undeclared" (by decide) (by decide)).1

end NAMDGen
